import Mathlib

/-!
Shallow embedding of the database bootstrap utility in src/db01_setup.py.

The repository consists of a single setup script built from two components:

* `execute_sql_file connection file_path` — opens the file, reads its whole
  content into one string, then runs `with connection:
  connection.executescript(sql_script)` and logs an informational message;
  any exception is logged (with the file path and the cause) and re-raised.

* `main` — logs a start message, computes the fixed paths, ensures the data
  directory exists via `DATA_FOLDER.mkdir(exist_ok=True)`, then inside a
  try/except/finally opens the SQLite connection, runs the three SQL files
  (drop, create, insert) in order, catches any Exception (logging it) and
  finally calls `connection.close()`.

The embedding models the SQLite engine state (the two managed tables), the
statement semantics needed by the scripts, the Python exception values, the
log/trace events, and the control flow of both functions, faithfully to the
source.  SQLite specifics modelled from the engine documentation used by the
source: a fresh connection has foreign-key enforcement OFF (PRAGMA
foreign_keys defaults to off and the source never changes it), and
`with connection:` is the sqlite3 context manager, which issues a commit
when the block exits normally and a rollback when it exits with an
exception.
-/

namespace DbSetup

/-- A row of the `authors` table: author_id TEXT PRIMARY KEY, first_name
TEXT, last_name TEXT, year_born INTEGER (schema of 02_create_tables.sql,
also embedded at src/db01_setup.py lines 74-79). -/
structure AuthorRow where
  author_id : String
  first_name : String
  last_name : String
  year_born : Int
  deriving DecidableEq, Repr

/-- A row of the `books` table: book_id TEXT PRIMARY KEY, title TEXT,
year_published INTEGER, author_id TEXT REFERENCES authors(author_id)
(schema of 02_create_tables.sql, embedded at src/db01_setup.py lines
86-92). -/
structure BookRow where
  book_id : String
  title : String
  year_published : Int
  author_id : String
  deriving DecidableEq, Repr

/-- The persistent database state.  The setup only ever manages the two
tables `authors` and `books`; a table is `none` when absent and
`some rows` when it exists with the given rows (in insertion order). -/
structure DBState where
  authorsTable : Option (List AuthorRow)
  booksTable : Option (List BookRow)
  deriving DecidableEq, Repr

/-- A fresh, empty database file as created by `sqlite3.connect` when the
file does not yet exist: no tables at all. -/
def freshDb : DBState := { authorsTable := none, booksTable := none }

/-- An open SQLite connection: the database it is connected to, plus the
foreign-key enforcement mode of this connection (PRAGMA foreign_keys). -/
structure ConnState where
  db : DBState
  fkOn : Bool
  deriving DecidableEq, Repr

/-- Python exception values that can arise in this program, keeping enough
identity to state that an error is re-raised unchanged. -/
inductive PyError where
  | fileNotFound (path : String)
  | permissionDenied (path : String)
  | tableExists (t : String)
  | noSuchTable (t : String)
  | uniqueViolation (t : String)
  | fkViolation
  | sqlSyntax (msg : String)
  | operationalError (msg : String)
  | nameError (n : String)
  deriving DecidableEq, Repr

/-- The message text of an exception, as interpolated into the log lines
(`str(e)` in Python). -/
def errMsg : PyError → String
  | .fileNotFound p => "[Errno 2] No such file or directory: " ++ p
  | .permissionDenied p => "[Errno 13] Permission denied: " ++ p
  | .tableExists t => "table " ++ t ++ " already exists"
  | .noSuchTable t => "no such table: " ++ t
  | .uniqueViolation t => "UNIQUE constraint failed: " ++ t
  | .fkViolation => "FOREIGN KEY constraint failed"
  | .sqlSyntax m => "near " ++ m ++ ": syntax error"
  | .operationalError m => m
  | .nameError n => "name " ++ n ++ " is not defined"

/-- SQL statements of the dialect the three scripts use.  `badStmt` stands
for a malformed text unit that the engine rejects with a syntax error. -/
inductive Stmt where
  | dropBooksIfExists
  | dropAuthorsIfExists
  | createAuthors
  | createBooks
  | insertAuthor (r : AuthorRow)
  | insertBook (r : BookRow)
  | badStmt (msg : String)
  deriving DecidableEq, Repr

/-- Whether the authors table exists and holds a row with the given id
(the parent-key lookup of the FOREIGN KEY constraint). -/
def authorsHas (db : DBState) (aid : String) : Bool :=
  match db.authorsTable with
  | none => false
  | some rows => rows.any fun a => a.author_id == aid

/-- SQLite semantics of one statement on a connection.  DROP TABLE IF
EXISTS never fails; CREATE TABLE fails when the table already exists;
INSERT fails when the table is absent or the primary key collides, and the
books FOREIGN KEY is checked only when this connection has foreign-key
enforcement on (SQLite default: off, and the source never turns it on). -/
def execStmt (c : ConnState) : Stmt → Except PyError ConnState
  | .dropBooksIfExists =>
      .ok { c with db := { c.db with booksTable := none } }
  | .dropAuthorsIfExists =>
      .ok { c with db := { c.db with authorsTable := none } }
  | .createAuthors =>
      match c.db.authorsTable with
      | some _ => .error (.tableExists "authors")
      | none => .ok { c with db := { c.db with authorsTable := some [] } }
  | .createBooks =>
      match c.db.booksTable with
      | some _ => .error (.tableExists "books")
      | none => .ok { c with db := { c.db with booksTable := some [] } }
  | .insertAuthor r =>
      match c.db.authorsTable with
      | none => .error (.noSuchTable "authors")
      | some rows =>
          if rows.any fun a => a.author_id == r.author_id then
            .error (.uniqueViolation "authors.author_id")
          else
            .ok { c with db := { c.db with authorsTable := some (rows ++ [r]) } }
  | .insertBook r =>
      match c.db.booksTable with
      | none => .error (.noSuchTable "books")
      | some rows =>
          if rows.any fun b => b.book_id == r.book_id then
            .error (.uniqueViolation "books.book_id")
          else if c.fkOn && !(authorsHas c.db r.author_id) then
            .error .fkViolation
          else
            .ok { c with db := { c.db with booksTable := some (rows ++ [r]) } }
  | .badStmt m => .error (.sqlSyntax m)

/-- `Connection.executescript`: the statements of the batch run one after
the other; the first failure stops the batch, keeping the effects of the
statements already executed (SQLite autocommits each statement of a script
that opens no explicit transaction, so earlier effects persist). -/
def runScript : ConnState → List Stmt → ConnState × Option PyError
  | c, [] => (c, none)
  | c, s :: rest =>
      match execStmt c s with
      | .ok c2 => runScript c2 rest
      | .error e => (c, some e)

/-- What `open(file_path)` finds at a path: a readable file with the given
parsed statement list, a missing file (FileNotFoundError), or an existing
but unreadable file (PermissionError). -/
inductive FileResult where
  | ok (content : List Stmt)
  | missing
  | unreadable
  deriving DecidableEq, Repr

/-- Observable events of a run: a Script Runner invocation (`attempt`),
the single `executescript` submission of a whole batch (`submit`), the
transaction calls a connection context manager can issue, the final
`connection.close()`, and the log lines. -/
inductive Event where
  | attempt (path : String)
  | submit (path : String) (script : List Stmt)
  | beginTx
  | commitTx
  | rollbackTx
  | close
  | logInfo (msg : String)
  | logError (msg : String)
  deriving DecidableEq, Repr

/-- The error line logged by `execute_sql_file` on any failure:
f"Failed to execute {file_path}: {e}". -/
def failMsg (path : String) (e : PyError) : String :=
  "Failed to execute " ++ path ++ ": " ++ errMsg e

/-- Embedding of `execute_sql_file(connection, file_path)`
(src/db01_setup.py lines 13-33).  The file is opened and fully read before
anything touches the connection; then `with connection:` runs
`executescript` on the whole string and logs the info line inside the
block, so the sqlite3 context manager commits after the info log on
success and rolls back before the except-clause error log on failure.
Returns the emitted events, the connection state afterwards, and the
exception propagated to the caller (`none` on normal return). -/
def execute_sql_file (c : ConnState) (file : FileResult) (path : String) :
    List Event × ConnState × Option PyError :=
  match file with
  | .missing =>
      let e := PyError.fileNotFound path
      ([.attempt path, .logError (failMsg path e)], c, some e)
  | .unreadable =>
      let e := PyError.permissionDenied path
      ([.attempt path, .logError (failMsg path e)], c, some e)
  | .ok script =>
      match runScript c script with
      | (c2, none) =>
          ([.attempt path, .submit path script,
            .logInfo ("Executed: " ++ path), .commitTx], c2, none)
      | (c2, some e) =>
          ([.attempt path, .submit path script, .rollbackTx,
            .logError (failMsg path e)], c2, some e)

/-- The data directory (`DATA_FOLDER`), with its permissions and its
contents other than the managed database file kept abstract so that the
frame condition of the setup can be stated. -/
structure DataDir where
  present : Bool
  perms : Nat
  contents : List String
  deriving DecidableEq, Repr

/-- `DATA_FOLDER.mkdir(exist_ok=True)` (src/db01_setup.py line 47): with
exist_ok the call succeeds whether or not the directory is present, creates
it when absent, and touches nothing else about it. -/
def mkdirExistOk (d : DataDir) : DataDir × Option PyError :=
  ({ d with present := true }, none)

/-- The world `main` starts from: the data directory, whether
`sqlite3.connect` succeeds, the database file content it opens (fresh and
empty when the file did not exist), and what lies at each of the three
script paths. -/
structure Env where
  dataDir : DataDir
  connectOk : Bool
  initialDb : DBState
  dropFile : FileResult
  createFile : FileResult
  insertFile : FileResult
  deriving DecidableEq, Repr

def dropPath : String := "sql_create/01_drop_tables.sql"

def createPath : String := "sql_create/02_create_tables.sql"

def insertPath : String := "sql_create/03_insert_records.sql"

def dbPath : String := "data/db.sqlite"

/-- The connection `sqlite3.connect(DB_PATH)` hands back when it succeeds:
attached to the current database file, with foreign-key enforcement at the
SQLite default (off) since the source issues no PRAGMA. -/
def connectConn (env : Env) : ConnState :=
  { db := env.initialDb, fkOn := false }

/-- Everything observable about one run of `main`: the ordered event trace,
the data directory afterwards, the database file state afterwards, the
exception the except-clause caught (if any), and the exception escaping
`main` to the interpreter (if any). -/
structure MainResult where
  events : List Event
  dataDir : DataDir
  finalDb : DBState
  caught : Option PyError
  escaped : Option PyError
  deriving DecidableEq, Repr

/-- The error line of the except clause of `main`:
f"Error during database setup: {e}". -/
def setupErrMsg (e : PyError) : String :=
  "Error during database setup: " ++ errMsg e

/-- The try/except/finally body of `main` (src/db01_setup.py lines 50-65),
given the directory already ensured.  When `connect` succeeds the three
`execute_sql_file` calls run in order, stopping at the first exception,
which the except clause catches and logs; the finally clause then closes
the connection and logs the closed message.  When `connect` itself raises,
the except clause catches and logs that error, but the finally clause then
evaluates the name `connection`, which was never bound, so the finally
clause raises a NameError that escapes `main` and no close happens.
Returns (events, final database file state, caught error, escaped error). -/
def tryConnectAndRun (env : Env) :
    List Event × DBState × Option PyError × Option PyError :=
  if env.connectOk then
    let c0 := connectConn env
    let evConn : List Event := [.logInfo ("Connected to database: " ++ dbPath)]
    let closeEvs : List Event := [.close, .logInfo "Database connection closed."]
    let (e1, c1, r1) := execute_sql_file c0 env.dropFile dropPath
    match r1 with
    | some err =>
        (evConn ++ e1 ++ [.logError (setupErrMsg err)] ++ closeEvs,
         c1.db, some err, none)
    | none =>
        let (e2, c2, r2) := execute_sql_file c1 env.createFile createPath
        match r2 with
        | some err =>
            (evConn ++ e1 ++ e2 ++ [.logError (setupErrMsg err)] ++ closeEvs,
             c2.db, some err, none)
        | none =>
            let (e3, c3, r3) := execute_sql_file c2 env.insertFile insertPath
            match r3 with
            | some err =>
                (evConn ++ e1 ++ e2 ++ e3 ++ [.logError (setupErrMsg err)] ++ closeEvs,
                 c3.db, some err, none)
            | none =>
                (evConn ++ e1 ++ e2 ++ e3 ++
                   [.logInfo "Database setup completed successfully."] ++ closeEvs,
                 c3.db, none, none)
  else
    let connErr := PyError.operationalError "unable to open database file"
    ([.logError (setupErrMsg connErr)],
     env.initialDb, some connErr, some (.nameError "connection"))

/-- Embedding of `main()` (src/db01_setup.py lines 35-65): log the start
message, ensure the data directory, then run the connect/execute/close
sequence. -/
def main (env : Env) : MainResult :=
  let dir1 := (mkdirExistOk env.dataDir).1
  let (evs, fdb, caught, escaped) := tryConnectAndRun env
  { events := [.logInfo "Starting database setup..."] ++ evs,
    dataDir := dir1, finalDb := fdb, caught := caught, escaped := escaped }

/-- The file path of a Script Runner invocation event, if it is one. -/
def attemptOf : Event → Option String
  | .attempt p => some p
  | _ => none

/-- Whether an event is a `connection.close()` call. -/
def isCloseEv : Event → Bool
  | .close => true
  | _ => false

/-- The Script Runner invocations of a trace, in order (the file paths
passed to `execute_sql_file`). -/
def attemptsOf (evs : List Event) : List String :=
  evs.filterMap attemptOf

/-- How many times `connection.close()` ran in a trace. -/
def closeCount (evs : List Event) : Nat :=
  evs.countP isCloseEv

/-- Modelled from the spec: the file `sql_create/01_drop_tables.sql` is not
under src/ (its content survives only as the blob embedded at
src/db01_setup.py lines 67-68); per spec section 6 it drops the managed
tables, dependents first: DROP TABLE IF EXISTS books; DROP TABLE IF EXISTS
authors. -/
def dropScript : List Stmt := [.dropBooksIfExists, .dropAuthorsIfExists]

/-- Modelled from the spec: the file `sql_create/02_create_tables.sql` is
not under src/ (the blob embedded at src/db01_setup.py lines 70-92 shows
its tables but is textually malformed, which spec section 9 calls an
authoring artifact, directing to the schema of sections 3 and 6): CREATE
TABLE authors(...) first, then CREATE TABLE books(...) with the foreign
key on author_id. -/
def createScript : List Stmt := [.createAuthors, .createBooks]

/-- The seed author of spec section 8: ("A1","Jane","Austen",1775). -/
def janeRow : AuthorRow :=
  { author_id := "A1", first_name := "Jane", last_name := "Austen",
    year_born := 1775 }

/-- The seed book of spec section 8: ("B1","Emma",1815,"A1"). -/
def emmaRow : BookRow :=
  { book_id := "B1", title := "Emma", year_published := 1815,
    author_id := "A1" }

/-- Modelled from the spec: the file `sql_create/03_insert_records.sql` is
not under src/; per spec sections 3 and 8 it inserts the fixed seed rows,
one author ("A1","Jane","Austen",1775) and one book ("B1","Emma",1815,"A1")
referencing it. -/
def insertScript : List Stmt := [.insertAuthor janeRow, .insertBook emmaRow]

/-- The database the seed scripts are meant to leave behind: both tables
present, holding exactly the seed rows. -/
def seededDb : DBState :=
  { authorsTable := some [janeRow], booksTable := some [emmaRow] }

/-- An environment where everything is in place: the three script files
exist with their (spec-modelled) contents and the connection opens. -/
def goodEnv (d : DataDir) (init : DBState) : Env :=
  { dataDir := d, connectOk := true, initialDb := init,
    dropFile := .ok dropScript, createFile := .ok createScript,
    insertFile := .ok insertScript }

/-- A sample pre-existing data directory used for concrete witnesses. -/
def sampleDir : DataDir :=
  { present := true, perms := 7, contents := ["notes.txt"] }

/-- A books row whose author_id ("ZZ") matches no seeded author. -/
def orphanBook : BookRow :=
  { book_id := "B2", title := "Ghost", year_published := 2000,
    author_id := "ZZ" }

/-- The connection state right after the setup has seeded the database:
foreign-key enforcement is still off, exactly as `sqlite3.connect` left it
(the source never issues PRAGMA foreign_keys). -/
def seededConnOff : ConnState := { db := seededDb, fkOn := false }

/-- A concrete environment in which `sqlite3.connect` itself raises (for
example, the database file path is not openable). -/
def noConnectEnv : Env :=
  { goodEnv sampleDir freshDb with connectOk := false }

/-- A concrete environment in which 01_drop_tables.sql is missing. -/
def dropMissingEnv : Env :=
  { goodEnv sampleDir freshDb with dropFile := .missing }

/-- A concrete environment in which 02_create_tables.sql is missing. -/
def createMissingEnv : Env :=
  { goodEnv sampleDir freshDb with createFile := .missing }

/-- Whether an event is an `executescript` batch submission. -/
def isSubmitEv : Event → Bool
  | .submit _ _ => true
  | _ => false

/-- How many `executescript` submissions a trace holds. -/
def submitCount (evs : List Event) : Nat :=
  evs.countP isSubmitEv

end DbSetup

namespace DbSetup

@[simp] lemma attemptOf_attempt (p : String) : attemptOf (.attempt p) = some p := rfl

@[simp] lemma attemptOf_submit (p : String) (s : List Stmt) :
    attemptOf (.submit p s) = none := rfl

@[simp] lemma attemptOf_beginTx : attemptOf .beginTx = none := rfl

@[simp] lemma attemptOf_commitTx : attemptOf .commitTx = none := rfl

@[simp] lemma attemptOf_rollbackTx : attemptOf .rollbackTx = none := rfl

@[simp] lemma attemptOf_close : attemptOf .close = none := rfl

@[simp] lemma attemptOf_logInfo (m : String) : attemptOf (.logInfo m) = none := rfl

@[simp] lemma attemptOf_logError (m : String) : attemptOf (.logError m) = none := rfl

@[simp] lemma isCloseEv_attempt (p : String) : isCloseEv (.attempt p) = false := rfl

@[simp] lemma isCloseEv_submit (p : String) (s : List Stmt) :
    isCloseEv (.submit p s) = false := rfl

@[simp] lemma isCloseEv_beginTx : isCloseEv .beginTx = false := rfl

@[simp] lemma isCloseEv_commitTx : isCloseEv .commitTx = false := rfl

@[simp] lemma isCloseEv_rollbackTx : isCloseEv .rollbackTx = false := rfl

@[simp] lemma isCloseEv_close : isCloseEv .close = true := rfl

@[simp] lemma isCloseEv_logInfo (m : String) : isCloseEv (.logInfo m) = false := rfl

@[simp] lemma isCloseEv_logError (m : String) : isCloseEv (.logError m) = false := rfl

@[simp] lemma isSubmitEv_attempt (p : String) : isSubmitEv (.attempt p) = false := rfl

@[simp] lemma isSubmitEv_submit (p : String) (s : List Stmt) :
    isSubmitEv (.submit p s) = true := rfl

@[simp] lemma isSubmitEv_beginTx : isSubmitEv .beginTx = false := rfl

@[simp] lemma isSubmitEv_commitTx : isSubmitEv .commitTx = false := rfl

@[simp] lemma isSubmitEv_rollbackTx : isSubmitEv .rollbackTx = false := rfl

@[simp] lemma isSubmitEv_close : isSubmitEv .close = false := rfl

@[simp] lemma isSubmitEv_logInfo (m : String) : isSubmitEv (.logInfo m) = false := rfl

@[simp] lemma isSubmitEv_logError (m : String) : isSubmitEv (.logError m) = false := rfl

@[simp] lemma attemptsOf_nil : attemptsOf [] = [] := rfl

@[simp] lemma attemptsOf_cons (e : Event) (evs : List Event) :
    attemptsOf (e :: evs) = (attemptOf e).toList ++ attemptsOf evs := by
  simp [attemptsOf, List.filterMap_cons]
  cases e <;> simp

@[simp] lemma attemptsOf_append (a b : List Event) :
    attemptsOf (a ++ b) = attemptsOf a ++ attemptsOf b := by
  simp [attemptsOf]

@[simp] lemma closeCount_nil : closeCount [] = 0 := rfl

@[simp] lemma closeCount_cons (e : Event) (evs : List Event) :
    closeCount (e :: evs) = (if isCloseEv e then 1 else 0) + closeCount evs := by
  simp [closeCount, List.countP_cons]
  cases e <;> simp [Nat.add_comm]

@[simp] lemma closeCount_append (a b : List Event) :
    closeCount (a ++ b) = closeCount a + closeCount b := by
  simp [closeCount, List.countP_append]

@[simp] lemma submitCount_nil : submitCount [] = 0 := rfl

@[simp] lemma submitCount_cons (e : Event) (evs : List Event) :
    submitCount (e :: evs) = (if isSubmitEv e then 1 else 0) + submitCount evs := by
  simp [submitCount, List.countP_cons]
  cases e <;> simp [Nat.add_comm]

@[simp] lemma submitCount_append (a b : List Event) :
    submitCount (a ++ b) = submitCount a + submitCount b := by
  simp [submitCount, List.countP_append]

/-- Every Script Runner call records exactly its own file path as the one
attempt of its event trace, whatever the outcome. -/
lemma exec_attempts (c : ConnState) (f : FileResult) (p : String) :
    attemptsOf (execute_sql_file c f p).1 = [p] := by
  cases f with
  | ok script =>
      rcases h : runScript c script with ⟨c2, r⟩
      cases r <;> simp [execute_sql_file, h]
  | missing => simp [execute_sql_file]
  | unreadable => simp [execute_sql_file]

/-- The Script Runner never closes the connection. -/
lemma exec_no_close (c : ConnState) (f : FileResult) (p : String) :
    closeCount (execute_sql_file c f p).1 = 0 := by
  cases f with
  | ok script =>
      rcases h : runScript c script with ⟨c2, r⟩
      cases r <;> simp [execute_sql_file, h]
  | missing => simp [execute_sql_file]
  | unreadable => simp [execute_sql_file]

end DbSetup


namespace DbSetup

/-- The fixed event tail of the finally clause on the close path. -/
lemma tryRun_eq_noConnect (env : Env) (h : env.connectOk = false) :
    tryConnectAndRun env =
      ([.logError (setupErrMsg (.operationalError "unable to open database file"))],
       env.initialDb, some (.operationalError "unable to open database file"),
       some (.nameError "connection")) := by
  simp [tryConnectAndRun, h]

lemma tryRun_eq_dropFail (env : Env) (h : env.connectOk = true)
    (e1 : List Event) (c1 : ConnState) (err : PyError)
    (h1 : execute_sql_file (connectConn env) env.dropFile dropPath = (e1, c1, some err)) :
    tryConnectAndRun env =
      ([Event.logInfo ("Connected to database: " ++ dbPath)] ++ e1 ++
         [Event.logError (setupErrMsg err)] ++
         [Event.close, Event.logInfo "Database connection closed."],
       c1.db, some err, none) := by
  simp [tryConnectAndRun, h, h1]

lemma tryRun_eq_createFail (env : Env) (h : env.connectOk = true)
    (e1 e2 : List Event) (c1 c2 : ConnState) (err : PyError)
    (h1 : execute_sql_file (connectConn env) env.dropFile dropPath = (e1, c1, none))
    (h2 : execute_sql_file c1 env.createFile createPath = (e2, c2, some err)) :
    tryConnectAndRun env =
      ([Event.logInfo ("Connected to database: " ++ dbPath)] ++ e1 ++ e2 ++
         [Event.logError (setupErrMsg err)] ++
         [Event.close, Event.logInfo "Database connection closed."],
       c2.db, some err, none) := by
  simp [tryConnectAndRun, h, h1, h2]

lemma tryRun_eq_insertFail (env : Env) (h : env.connectOk = true)
    (e1 e2 e3 : List Event) (c1 c2 c3 : ConnState) (err : PyError)
    (h1 : execute_sql_file (connectConn env) env.dropFile dropPath = (e1, c1, none))
    (h2 : execute_sql_file c1 env.createFile createPath = (e2, c2, none))
    (h3 : execute_sql_file c2 env.insertFile insertPath = (e3, c3, some err)) :
    tryConnectAndRun env =
      ([Event.logInfo ("Connected to database: " ++ dbPath)] ++ e1 ++ e2 ++ e3 ++
         [Event.logError (setupErrMsg err)] ++
         [Event.close, Event.logInfo "Database connection closed."],
       c3.db, some err, none) := by
  simp [tryConnectAndRun, h, h1, h2, h3]

lemma tryRun_eq_allOk (env : Env) (h : env.connectOk = true)
    (e1 e2 e3 : List Event) (c1 c2 c3 : ConnState)
    (h1 : execute_sql_file (connectConn env) env.dropFile dropPath = (e1, c1, none))
    (h2 : execute_sql_file c1 env.createFile createPath = (e2, c2, none))
    (h3 : execute_sql_file c2 env.insertFile insertPath = (e3, c3, none)) :
    tryConnectAndRun env =
      ([Event.logInfo ("Connected to database: " ++ dbPath)] ++ e1 ++ e2 ++ e3 ++
         [Event.logInfo "Database setup completed successfully."] ++
         [Event.close, Event.logInfo "Database connection closed."],
       c3.db, none, none) := by
  simp [tryConnectAndRun, h, h1, h2, h3]

lemma main_events (env : Env) :
    (main env).events =
      Event.logInfo "Starting database setup..." :: (tryConnectAndRun env).1 := by
  rcases hx : tryConnectAndRun env with ⟨a, b, c, d⟩
  simp [main, hx]

lemma main_finalDb (env : Env) : (main env).finalDb = (tryConnectAndRun env).2.1 := by
  rcases hx : tryConnectAndRun env with ⟨a, b, c, d⟩
  simp [main, hx]

lemma main_caught (env : Env) : (main env).caught = (tryConnectAndRun env).2.2.1 := by
  rcases hx : tryConnectAndRun env with ⟨a, b, c, d⟩
  simp [main, hx]

lemma main_escaped (env : Env) : (main env).escaped = (tryConnectAndRun env).2.2.2 := by
  rcases hx : tryConnectAndRun env with ⟨a, b, c, d⟩
  simp [main, hx]

lemma main_dataDir (env : Env) :
    (main env).dataDir = { env.dataDir with present := true } := by
  rcases hx : tryConnectAndRun env with ⟨a, b, c, d⟩
  simp [main, hx, mkdirExistOk]

end DbSetup

namespace DbSetup

/-- Whenever the connection opens, every branch of the try/except/finally
closes it exactly once and lets no exception escape. -/
lemma tryRun_ok_frame (env : Env) (h : env.connectOk = true) :
    closeCount (tryConnectAndRun env).1 = 1 ∧ (tryConnectAndRun env).2.2.2 = none := by
  rcases h1 : execute_sql_file (connectConn env) env.dropFile dropPath with ⟨e1, c1, r1⟩
  have n1 : closeCount e1 = 0 := by
    have hh := exec_no_close (connectConn env) env.dropFile dropPath
    rw [h1] at hh
    exact hh
  cases r1 with
  | some err =>
      rw [tryRun_eq_dropFail env h e1 c1 err h1]
      simp [n1]
  | none =>
      rcases h2 : execute_sql_file c1 env.createFile createPath with ⟨e2, c2, r2⟩
      have n2 : closeCount e2 = 0 := by
        have hh := exec_no_close c1 env.createFile createPath
        rw [h2] at hh
        exact hh
      cases r2 with
      | some err =>
          rw [tryRun_eq_createFail env h e1 e2 c1 c2 err h1 h2]
          simp [n1, n2]
      | none =>
          rcases h3 : execute_sql_file c2 env.insertFile insertPath with ⟨e3, c3, r3⟩
          have n3 : closeCount e3 = 0 := by
            have hh := exec_no_close c2 env.insertFile insertPath
            rw [h3] at hh
            exact hh
          cases r3 with
          | some err =>
              rw [tryRun_eq_insertFail env h e1 e2 e3 c1 c2 c3 err h1 h2 h3]
              simp [n1, n2, n3]
          | none =>
              rw [tryRun_eq_allOk env h e1 e2 e3 c1 c2 c3 h1 h2 h3]
              simp [n1, n2, n3]

/-- Whenever the connection opens and a script step raises, the except
clause of `main` logs that very error. -/
lemma tryRun_caught_logged (env : Env) (h : env.connectOk = true) (err : PyError)
    (hc : (tryConnectAndRun env).2.2.1 = some err) :
    Event.logError (setupErrMsg err) ∈ (tryConnectAndRun env).1 := by
  rcases h1 : execute_sql_file (connectConn env) env.dropFile dropPath with ⟨e1, c1, r1⟩
  cases r1 with
  | some err1 =>
      rw [tryRun_eq_dropFail env h e1 c1 err1 h1] at hc ⊢
      simp at hc
      subst hc
      simp
  | none =>
      rcases h2 : execute_sql_file c1 env.createFile createPath with ⟨e2, c2, r2⟩
      cases r2 with
      | some err2 =>
          rw [tryRun_eq_createFail env h e1 e2 c1 c2 err2 h1 h2] at hc ⊢
          simp at hc
          subst hc
          simp
      | none =>
          rcases h3 : execute_sql_file c2 env.insertFile insertPath with ⟨e3, c3, r3⟩
          cases r3 with
          | some err3 =>
              rw [tryRun_eq_insertFail env h e1 e2 e3 c1 c2 c3 err3 h1 h2 h3] at hc ⊢
              simp at hc
              subst hc
              simp
          | none =>
              rw [tryRun_eq_allOk env h e1 e2 e3 c1 c2 c3 h1 h2 h3] at hc
              simp at hc

end DbSetup

namespace DbSetup

/-- C1: after a successful run of the setup procedure the produced
database contains exactly the two declared tables — the row types
`AuthorRow` and `BookRow` carry the declared columns authors(author_id,
first_name, last_name, year_born) and books(book_id, title,
year_published, author_id) — and querying them returns exactly the rows of
the seed script, each books.author_id matching an existing
authors.author_id. -/
theorem c1_successful_run_seeds_declared_tables (d : DataDir) (init : DBState) :
    (main (goodEnv d init)).caught = none ∧
    (main (goodEnv d init)).escaped = none ∧
    (main (goodEnv d init)).finalDb = seededDb ∧
    (main (goodEnv d init)).finalDb.authorsTable = some [janeRow] ∧
    (main (goodEnv d init)).finalDb.booksTable = some [emmaRow] ∧
    ∀ b ∈ ((main (goodEnv d init)).finalDb.booksTable).getD [],
      ∃ a ∈ ((main (goodEnv d init)).finalDb.authorsTable).getD [],
        a.author_id = b.author_id := by
  refine ⟨rfl, rfl, rfl, rfl, rfl, ?_⟩
  have hdb : (main (goodEnv d init)).finalDb = seededDb := rfl
  rw [hdb]
  decide

/-- C2: running the full drop→create→insert setup twice in succession
yields the identical final schema and seed data both times, whatever state
the first run starts from and leaves behind: the second run discards all
state left by the first. -/
theorem c2_setup_idempotent (d : DataDir) (init : DBState) :
    (main (goodEnv d init)).finalDb = seededDb ∧
    (main (goodEnv (main (goodEnv d init)).dataDir
        (main (goodEnv d init)).finalDb)).finalDb = (main (goodEnv d init)).finalDb ∧
    (main (goodEnv d init)).escaped = none ∧
    (main (goodEnv (main (goodEnv d init)).dataDir
        (main (goodEnv d init)).finalDb)).escaped = none :=
  ⟨rfl, rfl, rfl, rfl⟩

/-- C4: for every connection and file path, the Script Runner on success
returns normally (no propagated error) and logs the info line naming the
executed file, and on each failure — missing file, unreadable file, or the
engine rejecting the batch — it logs the error line built from the file
path and the underlying cause (`failMsg`) and propagates exactly that same
underlying error to its caller. -/
theorem c4_runner_logs_and_reraises (c : ConnState) (p : String) (file : FileResult) :
    (∀ script c2, file = FileResult.ok script → runScript c script = (c2, none) →
       (execute_sql_file c file p).2.2 = none ∧
       Event.logInfo ("Executed: " ++ p) ∈ (execute_sql_file c file p).1) ∧
    (file = FileResult.missing →
       (execute_sql_file c file p).2.2 = some (PyError.fileNotFound p) ∧
       Event.logError (failMsg p (PyError.fileNotFound p)) ∈ (execute_sql_file c file p).1) ∧
    (file = FileResult.unreadable →
       (execute_sql_file c file p).2.2 = some (PyError.permissionDenied p) ∧
       Event.logError (failMsg p (PyError.permissionDenied p)) ∈ (execute_sql_file c file p).1) ∧
    (∀ script c2 err, file = FileResult.ok script → runScript c script = (c2, some err) →
       (execute_sql_file c file p).2.2 = some err ∧
       Event.logError (failMsg p err) ∈ (execute_sql_file c file p).1) := by
  refine ⟨?_, ?_, ?_, ?_⟩
  · rintro script c2 rfl hrun
    simp [execute_sql_file, hrun]
  · rintro rfl
    simp [execute_sql_file]
  · rintro rfl
    simp [execute_sql_file]
  · rintro script c2 err rfl hrun
    simp [execute_sql_file, hrun]

/-- C4 witness: the missing-file case of `c4_runner_logs_and_reraises` at
a concrete connection and path. -/
theorem c4_runner_logs_and_reraises_witness :
    (execute_sql_file seededConnOff FileResult.missing dropPath).2.2 =
      some (PyError.fileNotFound dropPath) ∧
    Event.logError (failMsg dropPath (PyError.fileNotFound dropPath)) ∈
      (execute_sql_file seededConnOff FileResult.missing dropPath).1 :=
  (c4_runner_logs_and_reraises seededConnOff dropPath FileResult.missing).2.1 rfl

/-- C8: on every run the data directory exists afterwards (created when
absent), the directory-creation step itself never fails thanks to
exist_ok, and the permissions and other contents of the directory are
untouched — only the database file state changes. -/
theorem c8_data_dir_created_and_preserved (env : Env) :
    (mkdirExistOk env.dataDir).2 = none ∧
    (main env).dataDir.present = true ∧
    (main env).dataDir.perms = env.dataDir.perms ∧
    (main env).dataDir.contents = env.dataDir.contents := by
  have hd := main_dataDir env
  exact ⟨rfl, by rw [hd], by rw [hd], by rw [hd]⟩

/-- C9: if opening or reading the SQL file fails, the Script Runner
propagates the failure without ever submitting a batch, so the connection
state is exactly the one it was handed: a file-access error leaves the
database unchanged. -/
theorem c9_file_error_before_any_submit (c : ConnState) (p : String)
    (file : FileResult)
    (h : file = FileResult.missing ∨ file = FileResult.unreadable) :
    (execute_sql_file c file p).2.1 = c ∧
    ((execute_sql_file c file p).2.2).isSome = true ∧
    ∀ q s, Event.submit q s ∉ (execute_sql_file c file p).1 := by
  rcases h with rfl | rfl <;> simp [execute_sql_file]

/-- C9 witness: `c9_file_error_before_any_submit` at a concrete seeded
connection with the drop script missing. -/
theorem c9_file_error_before_any_submit_witness :
    (execute_sql_file seededConnOff FileResult.missing dropPath).2.1 = seededConnOff ∧
    Event.submit dropPath dropScript ∉
      (execute_sql_file seededConnOff FileResult.missing dropPath).1 :=
  ⟨(c9_file_error_before_any_submit seededConnOff dropPath FileResult.missing
      (Or.inl rfl)).1,
   (c9_file_error_before_any_submit seededConnOff dropPath FileResult.missing
      (Or.inl rfl)).2.2 dropPath dropScript⟩

end DbSetup

namespace DbSetup

/-- C5 counterexample: in the concrete environment where `sqlite3.connect`
itself raises, the claim fails — the finally clause runs but the name
`connection` was never bound, so instead of a close a NameError escapes
`main` and the connection-close count is 0, not 1. -/
theorem c5_connect_failure_close_cex :
    ¬ (closeCount (main noConnectEnv).events = 1) ∧
    closeCount (main noConnectEnv).events = 0 ∧
    (main noConnectEnv).escaped = some (PyError.nameError "connection") := by
  decide

/-- C5 amended: whenever opening the connection succeeds, the cleanup
closes the connection exactly once regardless of whether the script steps
raised; when opening the connection itself fails, no close happens and the
finally clause raises a NameError (unbound `connection`) that escapes
`main`. -/
theorem c5_close_exactly_once_amended (env : Env) :
    (env.connectOk = true →
       closeCount (main env).events = 1 ∧ (main env).escaped = none) ∧
    (env.connectOk = false →
       closeCount (main env).events = 0 ∧
       (main env).escaped = some (PyError.nameError "connection")) := by
  constructor
  · intro h
    have frame := tryRun_ok_frame env h
    constructor
    · rw [main_events env]
      simp [frame.1]
    · rw [main_escaped env]
      exact frame.2
  · intro h
    have tE := tryRun_eq_noConnect env h
    constructor
    · rw [main_events env, tE]
      simp
    · rw [main_escaped env, tE]

/-- C5 witness: `c5_close_exactly_once_amended` at the all-good concrete
environment. -/
theorem c5_close_exactly_once_amended_witness :
    closeCount (main (goodEnv sampleDir freshDb)).events = 1 ∧
    (main (goodEnv sampleDir freshDb)).escaped = none :=
  (c5_close_exactly_once_amended (goodEnv sampleDir freshDb)).1 rfl

/-- C6 counterexample: on the connection exactly as the setup leaves it —
database seeded, foreign-key enforcement still at the SQLite default,
off — inserting a books row whose author_id "ZZ" matches no author
succeeds and lands an orphan row, instead of being rejected. -/
theorem c6_orphan_insert_accepted_cex :
    authorsHas seededConnOff.db orphanBook.author_id = false ∧
    (connectConn (goodEnv sampleDir freshDb)).fkOn = false ∧
    execStmt seededConnOff (Stmt.insertBook orphanBook) =
      Except.ok { db := { authorsTable := some [janeRow],
                          booksTable := some [emmaRow, orphanBook] },
                  fkOn := false } :=
  ⟨rfl, rfl, rfl⟩

/-- C6 amended: the schema declares the referential constraint, and an
insert of a books row whose author_id matches no author is rejected when
the connection has foreign-key enforcement on — but the setup never
enables enforcement, and at the engine default (off) such an insert
succeeds. -/
theorem c6_fk_rejects_only_when_enforced (c : ConnState) (r : BookRow)
    (rows : List BookRow) (hfk : c.fkOn = true)
    (hb : c.db.booksTable = some rows)
    (hpk : rows.any (fun b => b.book_id == r.book_id) = false)
    (hfa : authorsHas c.db r.author_id = false) :
    execStmt c (Stmt.insertBook r) = Except.error PyError.fkViolation := by
  simp [execStmt, hb, hpk, hfk, hfa]

/-- C6 witness: `c6_fk_rejects_only_when_enforced` on the seeded database
with enforcement turned on and the orphan row. -/
theorem c6_fk_rejects_only_when_enforced_witness :
    execStmt { db := seededDb, fkOn := true } (Stmt.insertBook orphanBook) =
      Except.error PyError.fkViolation :=
  c6_fk_rejects_only_when_enforced { db := seededDb, fkOn := true } orphanBook
    [emmaRow] rfl rfl (by decide) (by decide)

/-- C7 counterexample: already on the plain drop script the Script Runner
trace ends with a commit — issued by `with connection:`, the sqlite3
context manager — refuting that the runner issues no begin/commit/rollback
of its own. -/
theorem c7_runner_issues_commit_cex :
    Event.commitTx ∈
      (execute_sql_file seededConnOff (FileResult.ok dropScript) dropPath).1 := by
  decide

/-- C7 amended: for every connection, path and file content, the runner
reads the whole content and submits it as exactly one batch (one submit
event carrying the whole script); it issues no BEGIN of its own, but the
connection context manager it wraps the execution in issues a commit when
the batch succeeds and a rollback when the engine rejects it. -/
theorem c7_single_batch_with_ctx_manager (c : ConnState) (p : String)
    (script : List Stmt) :
    submitCount (execute_sql_file c (FileResult.ok script) p).1 = 1 ∧
    Event.submit p script ∈ (execute_sql_file c (FileResult.ok script) p).1 ∧
    Event.beginTx ∉ (execute_sql_file c (FileResult.ok script) p).1 ∧
    ((execute_sql_file c (FileResult.ok script) p).2.2 = none →
       Event.commitTx ∈ (execute_sql_file c (FileResult.ok script) p).1 ∧
       Event.rollbackTx ∉ (execute_sql_file c (FileResult.ok script) p).1) ∧
    (∀ err, (execute_sql_file c (FileResult.ok script) p).2.2 = some err →
       Event.rollbackTx ∈ (execute_sql_file c (FileResult.ok script) p).1 ∧
       Event.commitTx ∉ (execute_sql_file c (FileResult.ok script) p).1) := by
  rcases h : runScript c script with ⟨c2, r⟩
  cases r <;> simp [execute_sql_file, h]

/-- C7 witness: the success side of `c7_single_batch_with_ctx_manager` on
the drop script. -/
theorem c7_single_batch_with_ctx_manager_witness :
    Event.commitTx ∈
      (execute_sql_file seededConnOff (FileResult.ok dropScript) dropPath).1 ∧
    Event.rollbackTx ∉
      (execute_sql_file seededConnOff (FileResult.ok dropScript) dropPath).1 :=
  (c7_single_batch_with_ctx_manager seededConnOff dropPath dropScript).2.2.2.1 rfl

/-- C10: whenever opening the connection succeeds, `main` lets no
exception escape to its caller — any error one of the three script
executions raises is caught by the except clause and logged, and `main`
returns normally (so the process keeps its default zero exit status). -/
theorem c10_main_catches_script_errors (env : Env) (h : env.connectOk = true) :
    (main env).escaped = none ∧
    ∀ err, (main env).caught = some err →
      Event.logError (setupErrMsg err) ∈ (main env).events := by
  constructor
  · rw [main_escaped env]
    exact (tryRun_ok_frame env h).2
  · intro err hc
    rw [main_caught env] at hc
    rw [main_events env]
    exact List.mem_cons_of_mem _ (tryRun_caught_logged env h err hc)

/-- C10 witness: `c10_main_catches_script_errors` in the concrete
environment where the drop script is missing: the failure is caught and
nothing escapes `main`. -/
theorem c10_main_catches_script_errors_witness :
    (main dropMissingEnv).escaped = none :=
  (c10_main_catches_script_errors dropMissingEnv rfl).1

end DbSetup

namespace DbSetup

/-- C3: whenever the connection opens, the Script Runner calls of a run
are always an initial segment of the fixed order drop→create→insert and
the connection is closed exactly once on every path; when no step fails
all three run in that order; if the drop call fails for any reason
(missing file, unreadable file, or the engine rejecting the batch) only
the drop call was attempted; if the drop call succeeds and the create call
fails for any reason the insert call is never attempted; and in
particular a missing 01_drop_tables.sql leaves exactly the one drop
attempt. -/
theorem c3_fixed_order_and_failure_stops (env : Env) (h : env.connectOk = true) :
    closeCount (main env).events = 1 ∧
    attemptsOf (main env).events <+: [dropPath, createPath, insertPath] ∧
    ((main env).caught = none →
       attemptsOf (main env).events = [dropPath, createPath, insertPath]) ∧
    (∀ err, (execute_sql_file (connectConn env) env.dropFile dropPath).2.2 = some err →
       attemptsOf (main env).events = [dropPath]) ∧
    (∀ c1 err,
       (execute_sql_file (connectConn env) env.dropFile dropPath).2 = (c1, none) →
       (execute_sql_file c1 env.createFile createPath).2.2 = some err →
       attemptsOf (main env).events = [dropPath, createPath]) ∧
    (env.dropFile = FileResult.missing →
       attemptsOf (main env).events = [dropPath]) := by
  have hev := main_events env
  have hca := main_caught env
  have hclose : closeCount (main env).events = 1 := by
    rw [hev]
    simp [(tryRun_ok_frame env h).1]
  rcases h1 : execute_sql_file (connectConn env) env.dropFile dropPath with ⟨e1, c1, r1⟩
  have a1 : attemptsOf e1 = [dropPath] := by
    have hh := exec_attempts (connectConn env) env.dropFile dropPath
    rw [h1] at hh
    exact hh
  cases r1 with
  | some err1 =>
      have tE := tryRun_eq_dropFail env h e1 c1 err1 h1
      have hatt : attemptsOf (main env).events = [dropPath] := by
        rw [hev, tE]
        simp [a1]
      refine ⟨hclose, ?_, ?_, ?_, ?_, ?_⟩
      · rw [hatt]
        exact ⟨[createPath, insertPath], rfl⟩
      · intro hc
        rw [hca, tE] at hc
        simp at hc
      · intro _ _
        exact hatt
      · intro c1' err hd hcr
        simp at hd
      · intro _
        exact hatt
  | none =>
      rcases h2 : execute_sql_file c1 env.createFile createPath with ⟨e2, c2, r2⟩
      have a2 : attemptsOf e2 = [createPath] := by
        have hh := exec_attempts c1 env.createFile createPath
        rw [h2] at hh
        exact hh
      have hdropNotMissing : env.dropFile ≠ FileResult.missing := by
        intro hd
        rw [hd] at h1
        simp [execute_sql_file] at h1
      cases r2 with
      | some err2 =>
          have tE := tryRun_eq_createFail env h e1 e2 c1 c2 err2 h1 h2
          have hatt : attemptsOf (main env).events = [dropPath, createPath] := by
            rw [hev, tE]
            simp [a1, a2]
          refine ⟨hclose, ?_, ?_, ?_, ?_, ?_⟩
          · rw [hatt]
            exact ⟨[insertPath], rfl⟩
          · intro hc
            rw [hca, tE] at hc
            simp at hc
          · intro err he
            simp at he
          · intro c1' err hd hcr
            exact hatt
          · intro hd
            exact absurd hd hdropNotMissing
      | none =>
          rcases h3 : execute_sql_file c2 env.insertFile insertPath with ⟨e3, c3, r3⟩
          have a3 : attemptsOf e3 = [insertPath] := by
            have hh := exec_attempts c2 env.insertFile insertPath
            rw [h3] at hh
            exact hh
          cases r3 with
          | some err3 =>
              have tE := tryRun_eq_insertFail env h e1 e2 e3 c1 c2 c3 err3 h1 h2 h3
              have hatt :
                  attemptsOf (main env).events = [dropPath, createPath, insertPath] := by
                rw [hev, tE]
                simp [a1, a2, a3]
              refine ⟨hclose, ?_, ?_, ?_, ?_, ?_⟩
              · rw [hatt]
              · intro hc
                rw [hca, tE] at hc
                simp at hc
              · intro err he
                simp at he
              · intro c1' err hd hcr
                have hc1 : c1 = c1' := by simpa using hd
                subst hc1
                rw [h2] at hcr
                simp at hcr
              · intro hd
                exact absurd hd hdropNotMissing
          | none =>
              have tE := tryRun_eq_allOk env h e1 e2 e3 c1 c2 c3 h1 h2 h3
              have hatt :
                  attemptsOf (main env).events = [dropPath, createPath, insertPath] := by
                rw [hev, tE]
                simp [a1, a2, a3]
              refine ⟨hclose, ?_, ?_, ?_, ?_, ?_⟩
              · rw [hatt]
              · intro _
                exact hatt
              · intro err he
                simp at he
              · intro c1' err hd hcr
                have hc1 : c1 = c1' := by simpa using hd
                subst hc1
                rw [h2] at hcr
                simp at hcr
              · intro hd
                exact absurd hd hdropNotMissing

/-- C3 witness: `c3_fixed_order_and_failure_stops` in the concrete
environment where 01_drop_tables.sql is missing, exercising the general
drop-step-failure hypothesis: only the drop step is attempted and the
connection is still closed once. -/
theorem c3_fixed_order_and_failure_stops_witness :
    attemptsOf (main dropMissingEnv).events = [dropPath] ∧
    closeCount (main dropMissingEnv).events = 1 :=
  ⟨(c3_fixed_order_and_failure_stops dropMissingEnv rfl).2.2.2.1
      (PyError.fileNotFound dropPath) rfl,
   (c3_fixed_order_and_failure_stops dropMissingEnv rfl).1⟩

end DbSetup

namespace DbSetup

/-- C1 witness: `c1_successful_run_seeds_declared_tables` at a concrete
directory and a fresh database. -/
theorem c1_successful_run_seeds_declared_tables_witness :
    (main (goodEnv sampleDir freshDb)).finalDb = seededDb ∧
    (main (goodEnv sampleDir freshDb)).escaped = none :=
  ⟨(c1_successful_run_seeds_declared_tables sampleDir freshDb).2.2.1,
   (c1_successful_run_seeds_declared_tables sampleDir freshDb).2.1⟩

/-- C2 witness: `c2_setup_idempotent` starting from an already-seeded
database. -/
theorem c2_setup_idempotent_witness :
    (main (goodEnv sampleDir seededDb)).finalDb = seededDb :=
  (c2_setup_idempotent sampleDir seededDb).1

/-- C8 witness: `c8_data_dir_created_and_preserved` at the concrete
all-good environment. -/
theorem c8_data_dir_created_and_preserved_witness :
    (main (goodEnv sampleDir freshDb)).dataDir.present = true ∧
    (main (goodEnv sampleDir freshDb)).dataDir.contents = sampleDir.contents :=
  ⟨(c8_data_dir_created_and_preserved (goodEnv sampleDir freshDb)).2.1,
   (c8_data_dir_created_and_preserved (goodEnv sampleDir freshDb)).2.2.2⟩

end DbSetup
